import Mathlib

/-!
Verification of `tiktok.py`, the TikTok trend video generator application.
The file shallowly embeds the pieces of the program that its documented
behavior is about: the LLM gateway (`call_gemini_api`), the two prompt
builders (`generate_trends_with_llm`, `generate_veo_prompt_with_llm`), the
single-slot background task queue, and the UI state handlers of
`TikTokTrendApp`.  Python dicts become association lists, JSON values an
inductive type, exceptions an `Except` or outcome type, and the Qt thread
pool a labelled transition system.  After the definitions come the theorems
settling the documented properties.
-/

/-- JSON values as produced by `response.json()` in `tiktok.py`.  Python
dicts are modelled as association lists and Python `None` as `null`. -/
inductive Json where
  | null : Json
  | bool : Bool → Json
  | num : Int → Json
  | str : String → Json
  | arr : List Json → Json
  | obj : List (String × Json) → Json

/-- First-match lookup in an association list with string keys (the dict
literals in `tiktok.py` have pairwise distinct keys, so first-match and
Python dict lookup agree). -/
def lookupKey {α : Type} (k : String) : List (String × α) → Option α
  | [] => none
  | (k2, v) :: rest => if k2 = k then some v else lookupKey k rest

/-- Python truthiness of a JSON value: `None`, `False`, `0`, `""`, `[]` and
`{}` are falsy, everything else is truthy. -/
def Json.truthy : Json → Bool
  | .null => false
  | .bool b => b
  | .num n => n != 0
  | .str s => s != ""
  | .arr l => !l.isEmpty
  | .obj kvs => !kvs.isEmpty

/-- The Python method call `d.get(k)`: on a dict it returns the value or
`None`; on anything else it raises `AttributeError`. -/
def Json.pyGet : Json → String → Except String Json
  | .obj kvs, k => .ok ((lookupKey k kvs).getD .null)
  | _, _ => .error "AttributeError"

/-- The Python subscript `d[k]` with a string key: `KeyError` when the key
is missing, `TypeError` when the value is not a dict. -/
def Json.pyGetItem : Json → String → Except String Json
  | .obj kvs, k =>
    match lookupKey k kvs with
    | some v => .ok v
    | none => .error "KeyError"
  | _, _ => .error "TypeError"

/-- The Python subscript `l[i]` with a numeric index on a JSON list:
`IndexError` when out of range, `TypeError` when the value is not a list
(string indexing, which also succeeds in Python, never arises on the
response shapes the claims quantify over). -/
def Json.pyIndex : Json → Nat → Except String Json
  | .arr l, i =>
    match l.get? i with
    | some v => .ok v
    | none => .error "IndexError"
  | _, _ => .error "TypeError"

/-- The response-extraction step of `call_gemini_api` (tiktok.py lines
61-70): the chained truthiness guard
`result.get("candidates") and result["candidates"][0].get("content") and
result["candidates"][0]["content"].get("parts")` followed, when it holds,
by `result["candidates"][0]["content"]["parts"][0]["text"]`.  The guard
short-circuits exactly as Python `and` does; when it is falsy the function
returns `None` (modelled `.ok none`); a raised `KeyError`, `IndexError`,
`TypeError` or `AttributeError` is an `.error`. -/
def extract_response_text (result : Json) : Except String (Option Json) :=
  match Json.pyGet result "candidates" with
  | .error e => .error e
  | .ok cands_val =>
    if cands_val.truthy then
      match Json.pyGetItem result "candidates" with
      | .error e => .error e
      | .ok cands =>
        match Json.pyIndex cands 0 with
        | .error e => .error e
        | .ok c0 =>
          match Json.pyGet c0 "content" with
          | .error e => .error e
          | .ok content_val =>
            if content_val.truthy then
              match Json.pyGetItem c0 "content" with
              | .error e => .error e
              | .ok content =>
                match Json.pyGet content "parts" with
                | .error e => .error e
                | .ok parts_val =>
                  if parts_val.truthy then
                    match Json.pyGetItem content "parts" with
                    | .error e => .error e
                    | .ok parts =>
                      match Json.pyIndex parts 0 with
                      | .error e => .error e
                      | .ok p0 =>
                        match Json.pyGetItem p0 "text" with
                        | .error e => .error e
                        | .ok text => .ok (some text)
                  else .ok none
            else .ok none
    else .ok none

/-- Result of the `requests.post` call in `call_gemini_api`: either a
transport-level failure (`requests.exceptions.RequestException` raised by
`post` itself) or an HTTP response with a status code and a parsed JSON
body. -/
inductive TransportResult where
  | failure : TransportResult
  | response (status : Nat) (body : Json) : TransportResult

/-- What a call of `call_gemini_api` does, seen from its caller: return a
value, return `None`, or raise one of the exception kinds the source
distinguishes with its `except` clauses (each of which re-raises). -/
inductive GatewayOutcome where
  | ok (value : Json) : GatewayOutcome
  | none_result : GatewayOutcome
  | requestException : GatewayOutcome
  | jsonDecodeError : GatewayOutcome
  | otherError (e : String) : GatewayOutcome

/-- `call_gemini_api` (tiktok.py lines 35-81), parameterized by the
behavior `loads` of the library function `json.loads` (returning `none`
when the argument is not valid JSON, which the source surfaces as a raised
`json.JSONDecodeError`).  `response.raise_for_status()` raises
`requests.exceptions.HTTPError` — a `RequestException` — exactly for 4xx
and 5xx status codes. -/
def call_gemini_api (loads : String → Option Json) (transport : TransportResult)
    (response_schema : Option Json) : GatewayOutcome :=
  match transport with
  | .failure => .requestException
  | .response status body =>
    if 400 ≤ status ∧ status < 600 then .requestException
    else
      match extract_response_text body with
      | .error e => .otherError e
      | .ok none => .none_result
      | .ok (some text) =>
        match response_schema with
        | some _ =>
          match text with
          | .str s =>
            match loads s with
            | some v => .ok v
            | none => .jsonDecodeError
          | _ => .otherError "TypeError"
        | none => .ok text

/-- Modelled from the spec: the error taxonomy of section 7
(`TransportError`, `MalformedResponseError`, `EmptyResultError`).  The
source itself has no such named kinds; this maps each gateway outcome to
the kind the spec assigns it: a raised `RequestException` is the spec's
`TransportError`; a reply lacking the expected structure (the `None`
return) and a structured reply whose inner text fails to parse as JSON
(the raised `JSONDecodeError`) are the spec's `MalformedResponseError`.
A returned value is not an error, and no gateway path produces the spec's
`EmptyResultError` (that kind arises in the workers' falsy-result check,
outside the gateway). -/
inductive GatewayError where
  | transportError : GatewayError
  | malformedResponseError : GatewayError
  | emptyResultError : GatewayError

/-- Spec-side classification of a gateway outcome (see `GatewayError`). -/
def spec_error_kind : GatewayOutcome → Option GatewayError
  | .requestException => some .transportError
  | .none_result => some .malformedResponseError
  | .jsonDecodeError => some .malformedResponseError
  | .ok _ => none
  | .otherError _ => none

/-- Python's `sep.join(l)`: the elements of `l` interleaved with `sep`. -/
def pyJoin (sep : String) : List String → String
  | [] => ""
  | [a] => a
  | a :: b :: rest => a ++ sep ++ pyJoin sep (b :: rest)

/-- The characters removed by Python's `str.strip()` with no argument. -/
def pyIsSpace (c : Char) : Bool :=
  c == ' ' || c == '\t' || c == '\n' || c == '\r' || c == '\x0b' || c == '\x0c'

/-- Python's `str.strip()`: drop leading and trailing whitespace. -/
def pyStrip (s : String) : String :=
  ⟨((s.data.dropWhile pyIsSpace).reverse.dropWhile pyIsSpace).reverse⟩

/-- The instruction string built by `generate_trends_with_llm` (tiktok.py
lines 87-96), character for character, with the three inputs interpolated
where the f-strings interpolate them. -/
def generate_trends_prompt (topic region_name region_code : String) : String :=
  "As a social media trend analyst, generate a list of current top trending TikTok hashtags, trending TikTok songs (with artist if possible), and top Google search trends relevant to the topic \x27"
    ++ topic
    ++ "\x27 in the region \x27"
    ++ region_name
    ++ "\x27 ("
    ++ region_code
    ++ "). Provide the output in a JSON format with keys: \x27tiktok_hashtags\x27 (list of strings, e.g., [\x27#trend1\x27, \x27#trend2\x27]), \x27tiktok_songs\x27 (list of objects with \x27name\x27 and \x27artist\x27 strings), and \x27google_trends\x27 (list of strings). Ensure there are at least 5-10 items for hashtags and songs, and 5 for Google trends. Focus on recent and plausible trends. Avoid making up specific view counts, just list the names."

/-- The `response_schema` dict built by `generate_trends_with_llm`
(tiktok.py lines 98-122), as a JSON value. -/
def trend_response_schema : Json :=
  .obj
    [("type", .str "OBJECT"),
     ("properties", .obj
        [("tiktok_hashtags", .obj
            [("type", .str "ARRAY"),
             ("items", .obj [("type", .str "STRING")])]),
         ("tiktok_songs", .obj
            [("type", .str "ARRAY"),
             ("items", .obj
                [("type", .str "OBJECT"),
                 ("properties", .obj
                    [("name", .obj [("type", .str "STRING")]),
                     ("artist", .obj [("type", .str "STRING")])]),
                 ("required", .arr [.str "name", .str "artist"])])]),
         ("google_trends", .obj
            [("type", .str "ARRAY"),
             ("items", .obj [("type", .str "STRING")])])]),
     ("required", .arr [.str "tiktok_hashtags", .str "tiktok_songs", .str "google_trends"])]

/-- Total field access on a JSON value, `null` when absent or not a dict
(used only to state properties about concrete schema dicts). -/
def Json.getD : Json → String → Json
  | .obj kvs, k => (lookupKey k kvs).getD .null
  | _, _ => .null

/-- The strings of a JSON array (used to read `required` key lists). -/
def json_string_list : Json → List String
  | .arr l => l.filterMap fun j => match j with | .str s => some s | _ => none
  | _ => []

/-- The keys of a JSON dict, in order. -/
def json_obj_keys : Json → List String
  | .obj kvs => kvs.map Prod.fst
  | _ => []

/-- The key list the trend schema marks `required`. -/
def trend_schema_required : List String :=
  json_string_list (trend_response_schema.getD "required")

/-- The keys the trend schema declares under `properties`. -/
def trend_schema_property_keys : List String :=
  json_obj_keys (trend_response_schema.getD "properties")

/-- The trend data `generate_veo_prompt_with_llm` reads out of the stored
dict via `trend_data.get("tiktok_hashtags", [])` and its two siblings;
songs are (name, artist) pairs read by `s[\x27name\x27]` and
`s[\x27artist\x27]`. -/
structure TrendData where
  tiktok_hashtags : List String
  tiktok_songs : List (String × String)
  google_trends : List String

/-- The song list-comprehension element of tiktok.py line 138:
`f"\x27{s[\x27name\x27]}\x27 by {s[\x27artist\x27]}"`. -/
def song_phrase (s : String × String) : String :=
  "\x27" ++ s.1 ++ "\x27 by " ++ s.2

/-- The `", ".join(x) if x else "None provided."` pattern used for each of
the three trend categories on tiktok.py lines 137-139. -/
def join_or_none (l : List String) : String :=
  if l.isEmpty then "None provided." else pyJoin ", " l

/-- The `prompt_parts` list of `generate_veo_prompt_with_llm` (tiktok.py
lines 134-142), with the stored topic and region interpolated. -/
def prompt_parts (td : TrendData) (current_topic region_name : String) : List String :=
  ["Create a concise, creative, and highly descriptive text-to-video AI prompt (e.g., for Veo or similar models) for a TikTok-style video. The video should incorporate elements from the following trends relevant to \x27"
     ++ current_topic ++ "\x27 in \x27" ++ region_name ++ "\x27.",
   "\n\n**Trending TikTok Hashtags:**",
   join_or_none td.tiktok_hashtags,
   "\n\n**Trending TikTok Songs:**",
   join_or_none (td.tiktok_songs.map song_phrase),
   "\n\n**Top Google Search Trends:**",
   join_or_none td.google_trends,
   "\n\nThe video prompt should be imaginative, describe visual scenes, possible character actions, and suggest a mood or style. Keep it under 150 words. Focus on a single engaging concept."]

/-- The `full_prompt = "".join(prompt_parts)` of tiktok.py line 144: the
instruction text `generate_veo_prompt_with_llm` sends to the gateway. -/
def full_prompt (td : TrendData) (current_topic region_name : String) : String :=
  pyJoin "" (prompt_parts td current_topic region_name)

/-- Membership of `x` as a contiguous substring of `y` (stated on the
character lists underlying the strings). -/
abbrev substr_of (x y : List Char) : Prop :=
  ∃ s t, s ++ x ++ t = y

/-- Boolean prefix test on character lists, mirroring `List.isPrefixOf`. -/
def prefB : List Char → List Char → Bool
  | [], _ => true
  | _ :: _, [] => false
  | a :: x, b :: y => a == b && prefB x y

/-- Boolean contiguous-substring test. -/
def substrB (x y : List Char) : Bool :=
  (List.range (y.length + 1)).any fun i => prefB x (y.drop i)

/-- Number of positions of `s` at which `pat` occurs as a substring. -/
def countOcc (pat s : List Char) : Nat :=
  ((List.range (s.length + 1)).filter fun i => prefB pat (s.drop i)).length

/-- The `REGIONS` dict of tiktok.py lines 20-31, in source order. -/
def REGIONS : List (String × String) :=
  [("United States", "US"), ("Global", "GLOBAL"), ("United Kingdom", "GB"),
   ("Canada", "CA"), ("Australia", "AU"), ("Germany", "DE"), ("France", "FR"),
   ("India", "IN"), ("Brazil", "BR"), ("Mexico", "MX")]

/-- `REGIONS.get(name, "US")` from tiktok.py line 339. -/
def regions_get (name : String) : String :=
  (lookupKey name REGIONS).getD "US"

/-- A unit of work handed to `self.threadpool.start(...)`: either a
`TrendWorker(topic, region_name, region_code)` or a
`VeoPromptWorker(trend_data, current_topic, region_name)`, carrying the
constructor arguments of tiktok.py lines 345 and 452. -/
inductive WorkItem where
  | trendWorker (topic region_name region_code : String) : WorkItem
  | veoPromptWorker (trend_data : Json) (current_topic region_name : String) : WorkItem

/-- The mutable state of `TikTokTrendApp` that the handlers under
verification read and write: the enabled state of the three buttons, the
status label, `current_trend_data` / `current_topic` /
`current_region_name`, plus two observation logs — the work items passed
to `threadpool.start` and the messages shown through error boxes. -/
structure AppState where
  fetch_button_enabled : Bool
  generate_veo_button_enabled : Bool
  copy_prompt_button_enabled : Bool
  status_text : String
  current_trend_data : Json
  current_topic : String
  current_region_name : String
  submitted : List WorkItem
  errors_shown : List String

/-- `TikTokTrendApp.fetch_trends` (tiktok.py lines 328-348), with the
topic field text and the selected region passed in place of the widget
reads.  It disables all three buttons, strips the topic and defaults a
blank one to "general", and submits a `TrendWorker`. -/
def fetch_trends (topic_text region_selected : String) (s : AppState) : AppState :=
  let region_name := region_selected
  let region_code := regions_get region_name
  let topic0 := pyStrip topic_text
  let topic := if topic0 = "" then "general" else topic0
  { fetch_button_enabled := false
    generate_veo_button_enabled := false
    copy_prompt_button_enabled := false
    status_text := "Generating trends... This may take a moment."
    current_trend_data := s.current_trend_data
    current_topic := topic
    current_region_name := region_name
    submitted := s.submitted ++ [WorkItem.trendWorker topic region_name region_code]
    errors_shown := s.errors_shown }

/-- `TikTokTrendApp.display_trends` (tiktok.py lines 350-439) as far as
state goes: re-enable the fetch and video-prompt buttons and store the
received dict whole into `current_trend_data` (the HTML rendering that
follows touches no state). -/
def display_trends (trend_data : Json) (s : AppState) : AppState :=
  { s with
    fetch_button_enabled := true
    generate_veo_button_enabled := true
    status_text := "Trends generated successfully. Now you can generate a video prompt."
    current_trend_data := trend_data }

/-- `TikTokTrendApp.display_error_message_box` (tiktok.py lines 470-482):
re-enable the fetch and video-prompt buttons, disable the copy button, and
show the message in a warning box (logged here). -/
def display_error_message_box (message : String) (s : AppState) : AppState :=
  { s with
    fetch_button_enabled := true
    generate_veo_button_enabled := true
    copy_prompt_button_enabled := false
    status_text := "Error occurred."
    errors_shown := s.errors_shown ++ [message] }

/-- The local error message of tiktok.py line 443. -/
def veo_no_data_message : String :=
  "No trend data available to generate a video prompt. Please generate trends first."

/-- `TikTokTrendApp.generate_veo_prompt` (tiktok.py lines 441-455): when
`current_trend_data` is falsy, show the local error and return; otherwise
disable the video-prompt and copy buttons and submit a `VeoPromptWorker`
carrying the stored trend data, topic and region. -/
def generate_veo_prompt (s : AppState) : AppState :=
  if !s.current_trend_data.truthy then
    display_error_message_box veo_no_data_message s
  else
    { s with
      generate_veo_button_enabled := false
      copy_prompt_button_enabled := false
      status_text := "Generating AI video prompt... This might take a bit longer."
      submitted := s.submitted ++
        [WorkItem.veoPromptWorker s.current_trend_data s.current_topic s.current_region_name] }

/-- `TikTokTrendApp.display_veo_prompt` (tiktok.py lines 457-462): the
success handler of the video-prompt call re-enables the video-prompt
button and enables the copy button. -/
def display_veo_prompt (s : AppState) : AppState :=
  { s with
    generate_veo_button_enabled := true
    copy_prompt_button_enabled := true
    status_text := "AI video prompt generated successfully!" }

/-- The field values `TikTokTrendApp.__init__` establishes before its
closing `self.fetch_trends()` call: fetch button enabled (Qt default),
video-prompt and copy buttons disabled (lines 288 and 299), empty trend
dict, topic "general", region "United States", nothing submitted. -/
def init_state : AppState :=
  { fetch_button_enabled := true
    generate_veo_button_enabled := false
    copy_prompt_button_enabled := false
    status_text := "Enter a topic and click \x27Generate Trends\x27."
    current_trend_data := .obj []
    current_topic := "general"
    current_region_name := "United States"
    submitted := []
    errors_shown := [] }

/-- The application state right after `__init__` returns: `__init__` ends
with `self.fetch_trends()`, reading the defaults from the widgets. -/
def app_init : AppState :=
  fetch_trends "general" "United States" init_state

/-- A `QThreadPool` as the app configures and uses it: a bound on
concurrent work, a FIFO queue of submitted-but-not-started work, and the
currently running work. -/
structure ThreadPool (ι : Type) where
  maxThreadCount : Nat
  pending : List ι
  running : List ι

/-- Transitions of the thread pool, following Qt's documented `QThreadPool`
behavior: `submit` (`start(worker)`) appends to the FIFO queue; `started`
moves the queue head to the running set, allowed only while fewer than
`maxThreadCount` items run; `finished` removes a completed running item.
The repository configures the bound itself: see `app_thread_pool`. -/
inductive PoolStep (ι : Type) : ThreadPool ι → ThreadPool ι → Prop where
  | submit (p : ThreadPool ι) (w : ι) :
      PoolStep ι p { p with pending := p.pending ++ [w] }
  | started (p : ThreadPool ι) (w : ι) (rest : List ι) :
      p.pending = w :: rest →
      p.running.length < p.maxThreadCount →
      PoolStep ι p { p with pending := rest, running := p.running ++ [w] }
  | finished (p : ThreadPool ι) (w : ι) (l1 l2 : List ι) :
      p.running = l1 ++ w :: l2 →
      PoolStep ι p { p with running := l1 ++ l2 }

/-- States the pool can reach from a given state. -/
def PoolReachable (ι : Type) : ThreadPool ι → ThreadPool ι → Prop :=
  Relation.ReflTransGen (PoolStep ι)

/-- The pool `TikTokTrendApp.__init__` creates on tiktok.py lines 218-219:
`QThreadPool()` followed by `setMaxThreadCount(1)`, initially idle. -/
def app_thread_pool : ThreadPool WorkItem :=
  { maxThreadCount := 1, pending := [], running := [] }

/-- Appending strings appends their character data. -/
theorem data_append (s t : String) : (s ++ t).data = s.data ++ t.data := rfl

/-- A list is a substring of itself followed by anything. -/
theorem sub_here (x r : List Char) : substr_of x (x ++ r) :=
  ⟨[], r, by simp⟩

/-- A substring of `r` is a substring of `a ++ r`. -/
theorem sub_skip (a : List Char) {x r : List Char} (h : substr_of x r) :
    substr_of x (a ++ r) := by
  obtain ⟨s, t, hst⟩ := h
  exact ⟨a ++ s, t, by rw [← hst]; simp⟩

/-- Substring containment is transitive. -/
theorem sub_trans {x y z : List Char} (h1 : substr_of x y) (h2 : substr_of y z) :
    substr_of x z := by
  obtain ⟨s, t, h⟩ := h1
  obtain ⟨u, v, h2x⟩ := h2
  exact ⟨u ++ s, t ++ v, by rw [← h2x, ← h]; simp⟩

/-- Every element of a joined list occurs verbatim in the join. -/
theorem mem_pyJoin_sub {sep : String} {l : List String} {x : String} (hx : x ∈ l) :
    substr_of x.data (pyJoin sep l).data := by
  induction l with
  | nil => cases hx
  | cons a rest ih =>
    cases rest with
    | nil =>
      have hxa : x = a := by simpa using hx
      subst hxa
      exact ⟨[], [], by simp [pyJoin]⟩
    | cons b rest2 =>
      have e : pyJoin sep (a :: b :: rest2) = a ++ sep ++ pyJoin sep (b :: rest2) := rfl
      rw [e, data_append, data_append]
      rcases List.mem_cons.mp hx with h1 | h2
      · subst h1
        exact ⟨[], sep.data ++ (pyJoin sep (b :: rest2)).data, by simp⟩
      · have h3 := sub_skip sep.data (ih h2)
        have h4 := sub_skip a.data h3
        simpa using h4

/-- Correctness of the Boolean prefix test. -/
theorem prefB_iff (x y : List Char) : prefB x y = true ↔ ∃ t, x ++ t = y := by
  induction x generalizing y with
  | nil => simp [prefB]
  | cons a x ih =>
    cases y with
    | nil => simp [prefB]
    | cons b y => simp [prefB, ih, List.cons_append, and_assoc]

/-- Correctness of the Boolean substring test. -/
theorem substr_iff (x y : List Char) : substr_of x y ↔ substrB x y = true := by
  constructor
  · rintro ⟨s, t, h⟩
    have hs : s.length ≤ y.length := by
      rw [← h]
      simp [List.length_append]
    unfold substrB
    rw [List.any_eq_true]
    refine ⟨s.length, ?_, ?_⟩
    · rw [List.mem_range]
      omega
    · rw [prefB_iff]
      refine ⟨t, ?_⟩
      rw [← h, List.append_assoc]
      exact (List.drop_left s (x ++ t)).symm
  · intro hb
    unfold substrB at hb
    rw [List.any_eq_true] at hb
    obtain ⟨i, hi, hp⟩ := hb
    rw [prefB_iff] at hp
    obtain ⟨t, ht⟩ := hp
    exact ⟨y.take i, t, by rw [List.append_assoc, ht]; exact List.take_append_drop i y⟩

/-- Invariant of the application's pool: the bound stays 1 and at most one
item ever runs. -/
theorem pool_inv {p : ThreadPool WorkItem}
    (h : PoolReachable WorkItem app_thread_pool p) :
    p.maxThreadCount = 1 ∧ p.running.length ≤ 1 := by
  induction h with
  | refl => exact ⟨rfl, by simp [app_thread_pool]⟩
  | tail _ hstep ih =>
    obtain ⟨hm, hl⟩ := ih
    cases hstep with
    | submit w => exact ⟨hm, hl⟩
    | started w rest hpend hlt =>
      refine ⟨hm, ?_⟩
      rw [hm] at hlt
      simp only [List.length_append, List.length_cons, List.length_nil]
      omega
    | finished w l1 l2 hrun =>
      refine ⟨hm, ?_⟩
      rw [hrun] at hl
      simp only [List.length_append, List.length_cons] at hl ⊢
      omega

/-- Guard lemma: a falsy `candidates` value makes the extraction return
the no-result value without evaluating any subscript. -/
theorem extract_candidates_falsy {kvs : List (String × Json)}
    (h : ((lookupKey "candidates" kvs).getD Json.null).truthy = false) :
    extract_response_text (Json.obj kvs) = Except.ok none := by
  simp [extract_response_text, Json.pyGet, h]

/-- Guard lemma: a first candidate whose `content` is falsy makes the
extraction return the no-result value. -/
theorem extract_content_falsy {kvs ckvs : List (String × Json)} {cs : List Json}
    (hc : lookupKey "candidates" kvs = some (Json.arr (Json.obj ckvs :: cs)))
    (h2 : ((lookupKey "content" ckvs).getD Json.null).truthy = false) :
    extract_response_text (Json.obj kvs) = Except.ok none := by
  have ht : (Json.arr (Json.obj ckvs :: cs)).truthy = true := by simp [Json.truthy]
  simp [extract_response_text, Json.pyGet, Json.pyGetItem, Json.pyIndex, hc, ht, h2]

/-- Guard lemma: a truthy `content` whose `parts` is falsy makes the
extraction return the no-result value. -/
theorem extract_parts_falsy {kvs ckvs ctkvs : List (String × Json)} {cs : List Json}
    (hc : lookupKey "candidates" kvs = some (Json.arr (Json.obj ckvs :: cs)))
    (h2 : lookupKey "content" ckvs = some (Json.obj ctkvs))
    (hne : ctkvs ≠ [])
    (h3 : ((lookupKey "parts" ctkvs).getD Json.null).truthy = false) :
    extract_response_text (Json.obj kvs) = Except.ok none := by
  have ht : (Json.arr (Json.obj ckvs :: cs)).truthy = true := by simp [Json.truthy]
  have htr : (Json.obj ctkvs).truthy = true := by
    cases ctkvs with
    | nil => exact absurd rfl hne
    | cons a l => simp [Json.truthy]
  simp [extract_response_text, Json.pyGet, Json.pyGetItem, Json.pyIndex, hc, ht, h2, h3, htr]

/-- Claim C10: for every response dict whose `candidates` list is absent or
empty, or whose first candidate's `content` is absent, or whose `content`
has an absent or empty `parts` list, the extraction step of
`call_gemini_api` returns the no-result value (`None`) and raises no key
or index error: the chained truthiness guard makes every indexed access
reachable only when the indexed structure is non-empty. -/
theorem extraction_guard_safe (kvs : List (String × Json))
    (h : lookupKey "candidates" kvs = none
       ∨ lookupKey "candidates" kvs = some (Json.arr [])
       ∨ (∃ ckvs cs, lookupKey "candidates" kvs = some (Json.arr (Json.obj ckvs :: cs)) ∧
            (lookupKey "content" ckvs = none
             ∨ ∃ ctkvs, lookupKey "content" ckvs = some (Json.obj ctkvs) ∧ ctkvs ≠ [] ∧
                 (lookupKey "parts" ctkvs = none ∨ lookupKey "parts" ctkvs = some (Json.arr []))))) :
    extract_response_text (Json.obj kvs) = Except.ok none := by
  rcases h with h | h | ⟨ckvs, cs, hc, h2⟩
  · exact extract_candidates_falsy (by simp [h, Json.truthy])
  · exact extract_candidates_falsy (by simp [h, Json.truthy])
  · rcases h2 with h2 | ⟨ctkvs, h2, hne, h3⟩
    · exact extract_content_falsy hc (by simp [h2, Json.truthy])
    · rcases h3 with h3 | h3
      · exact extract_parts_falsy hc h2 hne (by simp [h3, Json.truthy])
      · exact extract_parts_falsy hc h2 hne (by simp [h3, Json.truthy])

/-- Witness for C10: the empty reply dict takes the safe path. -/
theorem extraction_guard_safe_w :
    extract_response_text (Json.obj []) = Except.ok none :=
  extraction_guard_safe [] (Or.inl rfl)

/-- Claim C2: for every gateway invocation, a transport failure or an
error HTTP status yields the spec's `TransportError`; a reply JSON with no
`candidates` key yields the spec's `MalformedResponseError`; and a
schema-requested call whose inner text is not valid JSON yields the spec's
`MalformedResponseError` — each a failure kind, never a success value
(`spec_error_kind` maps only non-`ok` outcomes to `some`). -/
theorem gateway_error_taxonomy (loads : String → Option Json)
    (response_schema : Option Json) (status : Nat) (kvs : List (String × Json)) :
    (spec_error_kind (call_gemini_api loads TransportResult.failure response_schema) =
        some GatewayError.transportError)
  ∧ (400 ≤ status ∧ status < 600 →
      spec_error_kind (call_gemini_api loads (TransportResult.response status (Json.obj kvs))
          response_schema) = some GatewayError.transportError)
  ∧ (¬ (400 ≤ status ∧ status < 600) → lookupKey "candidates" kvs = none →
      spec_error_kind (call_gemini_api loads (TransportResult.response status (Json.obj kvs))
          response_schema) = some GatewayError.malformedResponseError)
  ∧ (∀ schema_obj txt, ¬ (400 ≤ status ∧ status < 600) →
      extract_response_text (Json.obj kvs) = Except.ok (some (Json.str txt)) →
      loads txt = none →
      spec_error_kind (call_gemini_api loads (TransportResult.response status (Json.obj kvs))
          (some schema_obj)) = some GatewayError.malformedResponseError) := by
  refine ⟨rfl, ?_, ?_, ?_⟩
  · intro h45
    simp [call_gemini_api, if_pos h45, spec_error_kind]
  · intro h45 hc
    have he : extract_response_text (Json.obj kvs) = Except.ok none :=
      extract_candidates_falsy (by simp [hc, Json.truthy])
    simp [call_gemini_api, if_neg h45, he, spec_error_kind]
  · intro schema_obj txt h45 hext hl
    simp [call_gemini_api, if_neg h45, hext, hl, spec_error_kind]

/-- Witness for C2: concrete failure inputs of each kind. -/
theorem gateway_error_taxonomy_w :
    spec_error_kind (call_gemini_api (fun _ => none) TransportResult.failure none) =
        some GatewayError.transportError
  ∧ spec_error_kind (call_gemini_api (fun _ => none)
        (TransportResult.response 500 (Json.obj [])) none) = some GatewayError.transportError
  ∧ spec_error_kind (call_gemini_api (fun _ => none)
        (TransportResult.response 200 (Json.obj [])) none) = some GatewayError.malformedResponseError
  ∧ spec_error_kind (call_gemini_api (fun _ => none)
        (TransportResult.response 200 (Json.obj
          [("candidates", Json.arr [Json.obj [("content", Json.obj
            [("parts", Json.arr [Json.obj [("text", Json.str "not json")]])])]])]))
        (some (Json.obj []))) = some GatewayError.malformedResponseError := by
  refine ⟨(gateway_error_taxonomy (fun _ => none) none 500 []).1, ?_, ?_, ?_⟩
  · exact (gateway_error_taxonomy (fun _ => none) none 500 []).2.1 (by decide)
  · exact (gateway_error_taxonomy (fun _ => none) none 200 []).2.2.1 (by decide) rfl
  · exact (gateway_error_taxonomy (fun _ => none) none 200
      [("candidates", Json.arr [Json.obj [("content", Json.obj
        [("parts", Json.arr [Json.obj [("text", Json.str "not json")]])])]])]).2.2.2
      (Json.obj []) "not json" (by decide) rfl rfl

/-- Claim C9: in every state the application's task queue can reach, at
most one work item is executing, and while one item runs no further start
transition is enabled — so two submitted items never execute concurrently
and the second (the FIFO head) starts only after the first finishes. -/
theorem pool_single_slot_serialization (p : ThreadPool WorkItem)
    (h : PoolReachable WorkItem app_thread_pool p) :
    p.running.length ≤ 1 ∧
      (p.running ≠ [] → ¬ p.running.length < p.maxThreadCount) := by
  obtain ⟨hm, hl⟩ := pool_inv h
  refine ⟨hl, ?_⟩
  intro hne hlt
  rw [hm] at hlt
  have hp := List.length_pos_of_ne_nil hne
  omega

/-- Witness for C9: the initial pool itself. -/
theorem pool_single_slot_serialization_w :
    app_thread_pool.running.length ≤ 1 ∧
      (app_thread_pool.running ≠ [] →
        ¬ app_thread_pool.running.length < app_thread_pool.maxThreadCount) :=
  pool_single_slot_serialization app_thread_pool Relation.ReflTransGen.refl

/-- Claim C6: whenever the video-prompt action runs while the stored trend
data is empty (falsy), it calls the error box with a locally produced
message and returns: no work item is constructed and nothing reaches the
gateway or the network. -/
theorem veo_prompt_without_trend_data_local_error (s : AppState)
    (h : s.current_trend_data.truthy = false) :
    generate_veo_prompt s = display_error_message_box veo_no_data_message s
  ∧ (generate_veo_prompt s).submitted = s.submitted
  ∧ (generate_veo_prompt s).errors_shown = s.errors_shown ++ [veo_no_data_message] := by
  have e : generate_veo_prompt s = display_error_message_box veo_no_data_message s := by
    simp [generate_veo_prompt, h]
  exact ⟨e, by rw [e]; rfl, by rw [e]; rfl⟩

/-- Witness for C6: the state right after `__init__` sets its fields. -/
theorem veo_prompt_without_trend_data_local_error_w :
    generate_veo_prompt init_state = display_error_message_box veo_no_data_message init_state
  ∧ (generate_veo_prompt init_state).submitted = init_state.submitted
  ∧ (generate_veo_prompt init_state).errors_shown =
      init_state.errors_shown ++ [veo_no_data_message] :=
  veo_prompt_without_trend_data_local_error init_state rfl

/-- Claim C7: for every trend-generation request, a topic text that is
blank after stripping makes the effective topic "general"; a non-blank
topic is used stripped and otherwise unchanged — in both the stored
`current_topic` and the submitted work item. -/
theorem fetch_trends_effective_topic (s : AppState) (topic_text region_selected : String) :
    (pyStrip topic_text = "" →
        (fetch_trends topic_text region_selected s).current_topic = "general"
      ∧ (fetch_trends topic_text region_selected s).submitted =
          s.submitted ++ [WorkItem.trendWorker "general" region_selected
            (regions_get region_selected)])
  ∧ (pyStrip topic_text ≠ "" →
        (fetch_trends topic_text region_selected s).current_topic = pyStrip topic_text
      ∧ (fetch_trends topic_text region_selected s).submitted =
          s.submitted ++ [WorkItem.trendWorker (pyStrip topic_text) region_selected
            (regions_get region_selected)]) := by
  constructor
  · intro h
    constructor <;> simp [fetch_trends, h]
  · intro h
    constructor <;> simp [fetch_trends, h]

/-- Witness for C7: a whitespace-only topic and a padded topic. -/
theorem fetch_trends_effective_topic_w :
    (fetch_trends "   " "United States" init_state).current_topic = "general"
  ∧ (fetch_trends " gaming " "United States" init_state).current_topic = "gaming" := by
  constructor
  · exact ((fetch_trends_effective_topic init_state "   " "United States").1 (by decide)).1
  · have h := ((fetch_trends_effective_topic init_state " gaming " "United States").2
      (by decide)).1
    rw [h]
    decide

/-- Claim C8: `current_trend_data` is written only by the trend success
handler `display_trends`, which replaces it whole with the received dict
in one assignment; `fetch_trends`, the error handler, and both
video-prompt paths leave it untouched. -/
theorem trend_data_overwritten_only_on_success (s : AppState)
    (topic_text region_selected message : String) (d : Json) :
    (fetch_trends topic_text region_selected s).current_trend_data = s.current_trend_data
  ∧ (display_error_message_box message s).current_trend_data = s.current_trend_data
  ∧ (generate_veo_prompt s).current_trend_data = s.current_trend_data
  ∧ (display_veo_prompt s).current_trend_data = s.current_trend_data
  ∧ (display_trends d s).current_trend_data = d := by
  refine ⟨rfl, rfl, ?_, rfl, rfl⟩
  unfold generate_veo_prompt
  split <;> rfl

/-- Counterexample for C1: right after the automatic startup fetch the
video-prompt control is disabled and no trend set exists; delivering an
error notification then runs the error handler, which leaves the control
ENABLED, not disabled as claimed. -/
theorem trend_failure_leaves_button_enabled_cex :
    app_init.generate_veo_button_enabled = false
  ∧ app_init.current_trend_data.truthy = false
  ∧ (display_error_message_box "Error during LLM trend data generation: boom"
      app_init).generate_veo_button_enabled = true :=
  ⟨rfl, rfl, rfl⟩

/-- Claim C1 as amended: the error handler re-enables the fetch and
video-prompt controls (and disables copy) after every failure, matching
the propagation policy; the trend data itself is untouched, and when no
trend set exists a subsequent video-prompt attempt fails with the local
error and submits nothing to the gateway. -/
theorem error_handler_reenables_controls (s : AppState) (message : String) :
    (display_error_message_box message s).fetch_button_enabled = true
  ∧ (display_error_message_box message s).generate_veo_button_enabled = true
  ∧ (display_error_message_box message s).copy_prompt_button_enabled = false
  ∧ (display_error_message_box message s).current_trend_data = s.current_trend_data
  ∧ (s.current_trend_data.truthy = false →
      (generate_veo_prompt (display_error_message_box message s)).submitted =
        (display_error_message_box message s).submitted
    ∧ (generate_veo_prompt (display_error_message_box message s)).errors_shown =
        (display_error_message_box message s).errors_shown ++ [veo_no_data_message]) := by
  refine ⟨rfl, rfl, rfl, rfl, ?_⟩
  intro h
  have h2 : (display_error_message_box message s).current_trend_data.truthy = false := h
  exact ⟨(veo_prompt_without_trend_data_local_error _ h2).2.1,
         (veo_prompt_without_trend_data_local_error _ h2).2.2⟩

/-- Witness for C1's amended claim: the startup state after a failed
fetch. -/
theorem error_handler_reenables_controls_w :
    (display_error_message_box "boom" app_init).generate_veo_button_enabled = true
  ∧ (generate_veo_prompt (display_error_message_box "boom" app_init)).submitted =
      (display_error_message_box "boom" app_init).submitted := by
  refine ⟨(error_handler_reenables_controls app_init "boom").2.1, ?_⟩
  exact ((error_handler_reenables_controls app_init "boom").2.2.2.2 rfl).1

set_option maxRecDepth 1000000

/-- Counterexample for C3: the schema the code attaches to a trend request
requires the keys `tiktok_hashtags`, `tiktok_songs`, `google_trends` — not
`hashtags`, `songs`, `searchTerms` as claimed; none of the claimed keys
appears in the required list at all. -/
theorem trend_schema_keys_cex :
    trend_schema_required = ["tiktok_hashtags", "tiktok_songs", "google_trends"]
  ∧ trend_schema_required ≠ ["hashtags", "songs", "searchTerms"]
  ∧ "hashtags" ∉ trend_schema_required
  ∧ "songs" ∉ trend_schema_required
  ∧ "searchTerms" ∉ trend_schema_required := by
  refine ⟨rfl, by decide, by decide, by decide, by decide⟩

/-- Claim C3 as amended: for every non-empty topic, region display name
and region code, the trend instruction contains all three verbatim, and
the fixed schema requires exactly the three keys `tiktok_hashtags`,
`tiktok_songs`, `google_trends` (which are also exactly its declared
properties). -/
theorem trend_request_contents (topic region_name region_code : String)
    (h1 : topic ≠ "") (h2 : region_name ≠ "") (h3 : region_code ≠ "") :
    substr_of topic.data (generate_trends_prompt topic region_name region_code).data
  ∧ substr_of region_name.data (generate_trends_prompt topic region_name region_code).data
  ∧ substr_of region_code.data (generate_trends_prompt topic region_name region_code).data
  ∧ trend_schema_required = ["tiktok_hashtags", "tiktok_songs", "google_trends"]
  ∧ trend_schema_property_keys = ["tiktok_hashtags", "tiktok_songs", "google_trends"] := by
  refine ⟨?_, ?_, ?_, rfl, rfl⟩
  · simp only [generate_trends_prompt, data_append, List.append_assoc]
    exact sub_skip _ (sub_here _ _)
  · simp only [generate_trends_prompt, data_append, List.append_assoc]
    exact sub_skip _ (sub_skip _ (sub_skip _ (sub_here _ _)))
  · simp only [generate_trends_prompt, data_append, List.append_assoc]
    exact sub_skip _ (sub_skip _ (sub_skip _ (sub_skip _ (sub_skip _ (sub_here _ _)))))

/-- Witness for C3's amended claim: the end-to-end example inputs. -/
theorem trend_request_contents_w :
    substr_of "gaming".data (generate_trends_prompt "gaming" "United States" "US").data
  ∧ substr_of "US".data (generate_trends_prompt "gaming" "United States" "US").data
  ∧ trend_schema_required = ["tiktok_hashtags", "tiktok_songs", "google_trends"] := by
  refine ⟨?_, ?_, ?_⟩
  · exact (trend_request_contents "gaming" "United States" "US"
      (by decide) (by decide) (by decide)).1
  · exact (trend_request_contents "gaming" "United States" "US"
      (by decide) (by decide) (by decide)).2.2.1
  · exact (trend_request_contents "gaming" "United States" "US"
      (by decide) (by decide) (by decide)).2.2.2.1

/-- A character of a substring is a character of the enclosing string. -/
theorem mem_of_substr {c : Char} {x y : List Char} (hc : c ∈ x) (h : substr_of x y) :
    c ∈ y := by
  obtain ⟨s, t, hst⟩ := h
  rw [← hst]
  exact List.mem_append.mpr (Or.inl (List.mem_append.mpr (Or.inr hc)))

/-- A non-empty category is rendered as its comma join, not the
placeholder. -/
theorem join_or_none_ne {l : List String} (h : l ≠ []) :
    join_or_none l = pyJoin ", " l := by
  cases l with
  | nil => exact absurd rfl h
  | cons a rest => simp [join_or_none]


/-- Counterexample for C4: the video instruction formats songs with
apostrophes, so for the trend set of the spec's own end-to-end example the
claimed double-quoted phrase `"Song" by Artist` does not occur in the
produced instruction (the instruction contains no double-quote character
at all). -/
theorem video_prompt_song_format_cex :
    ¬ substr_of ("\x22Song\x22 by Artist".data)
      ((full_prompt ⟨["#gamingtok"], [("Song", "Artist")], ["best games 2024"]⟩
        "gaming" "United States").data) := by
  intro h
  have hc : '\x22' ∈ ("\x22Song\x22 by Artist".data) := by decide
  have h2 := mem_of_substr hc h
  revert h2
  decide

/-- Claim C4 as amended: for every trend set with non-empty hashtags and
songs, the video instruction contains the comma-join of the hashtags and
the comma-join of the `\x27name\x27 by artist` song phrases, hence every
hashtag string and every song phrase verbatim, separated by commas. -/
theorem video_prompt_contains_trends (td : TrendData) (current_topic region_name : String)
    (hh : td.tiktok_hashtags ≠ []) (hsg : td.tiktok_songs ≠ []) :
    substr_of (pyJoin ", " td.tiktok_hashtags).data
      (full_prompt td current_topic region_name).data
  ∧ substr_of (pyJoin ", " (td.tiktok_songs.map song_phrase)).data
      (full_prompt td current_topic region_name).data
  ∧ (∀ x ∈ td.tiktok_hashtags,
      substr_of x.data (full_prompt td current_topic region_name).data)
  ∧ (∀ sp ∈ td.tiktok_songs,
      substr_of (song_phrase sp).data (full_prompt td current_topic region_name).data) := by
  have hmap : td.tiktok_songs.map song_phrase ≠ [] := by
    cases hl : td.tiktok_songs with
    | nil => exact absurd hl hsg
    | cons a rest => simp
  have m1 : substr_of (pyJoin ", " td.tiktok_hashtags).data
      (full_prompt td current_topic region_name).data := by
    rw [← join_or_none_ne hh]
    exact mem_pyJoin_sub (by simp [prompt_parts])
  have m2 : substr_of (pyJoin ", " (td.tiktok_songs.map song_phrase)).data
      (full_prompt td current_topic region_name).data := by
    rw [← join_or_none_ne hmap]
    exact mem_pyJoin_sub (by simp [prompt_parts])
  refine ⟨m1, m2, ?_, ?_⟩
  · intro x hx
    exact sub_trans (mem_pyJoin_sub hx) m1
  · intro sp hsp
    exact sub_trans (mem_pyJoin_sub (List.mem_map_of_mem song_phrase hsp)) m2

/-- Witness for C4's amended claim: the spec's end-to-end example trend
set; both the hashtag and the apostrophe-formatted song phrase occur. -/
theorem video_prompt_contains_trends_w :
    substr_of "#gamingtok".data
      ((full_prompt ⟨["#gamingtok"], [("Song", "Artist")], ["best games 2024"]⟩
        "gaming" "United States").data)
  ∧ substr_of (song_phrase ("Song", "Artist")).data
      ((full_prompt ⟨["#gamingtok"], [("Song", "Artist")], ["best games 2024"]⟩
        "gaming" "United States").data) := by
  constructor
  · exact (video_prompt_contains_trends
      ⟨["#gamingtok"], [("Song", "Artist")], ["best games 2024"]⟩
      "gaming" "United States" (by decide) (by decide)).2.2.1 "#gamingtok" (by decide)
  · exact (video_prompt_contains_trends
      ⟨["#gamingtok"], [("Song", "Artist")], ["best games 2024"]⟩
      "gaming" "United States" (by decide) (by decide)).2.2.2 ("Song", "Artist") (by decide)

/-- Claim C5: for the empty trend set, the video instruction built with
the application's startup topic and region contains the placeholder
"None provided" exactly three times — once per category (the count is
stated at the concrete startup context because the surrounding topic and
region text takes part in the count). -/
theorem video_prompt_empty_placeholder_count :
    countOcc ("None provided".data)
      ((full_prompt ⟨[], [], []⟩ "general" "United States").data) = 3 := by
  decide
